import Mathlib

/-!
Verification of the movie data-access layer (`api/dao/movies.py`).

The DAO wraps a Neo4j driver: each method opens a session and runs
parameterized Cypher queries inside a read transaction.  We embed the
layer shallowly: the graph database becomes an explicit `Graph` value,
each Cypher query becomes a Lean function over `Graph` implementing the
query's semantics, and each DAO method returns its result paired with
the list of query texts it executed (so that "no query runs" and
"a query always runs" are statable).  Python's `None` becomes `Option`,
Python slicing becomes `pySlice` over `Int` indices with CPython's
clamping rules.
-/

/-- Lexicographic comparison of character lists, by structural
recursion (kernel-computable; agrees with the usual string order). -/
def charsLe : List Char → List Char → Bool
  | [], _ => true
  | _ :: _, [] => false
  | a :: as, b :: bs => if a < b then true else if b < a then false else charsLe as bs

/-- Lexicographic string comparison used to model Cypher string
ordering. -/
def strLe (a b : String) : Bool := charsLe a.data b.data

/-- A Neo4j property value as used by this layer: strings (titles,
posters, ids) and integers (years, rating values).  Cypher defines a
total order across types for `ORDER BY`; homogeneous columns, the only
ones the spec exercises, are unaffected by the cross-type direction
chosen here. -/
inductive PropValue where
  | str (s : String)
  | int (n : Int)
deriving DecidableEq, Repr

/-- Ascending comparison on property values (strings before integers;
within a type, the natural order). -/
def pvLe : PropValue → PropValue → Bool
  | .str a, .str b => strLe a b
  | .str _, .int _ => true
  | .int _, .str _ => false
  | .int a, .int b => a ≤ b

/-- Ascending comparison on optional property values; `null` sorts
last, as in Cypher `ORDER BY ... ASC`. -/
def opvLe : Option PropValue → Option PropValue → Bool
  | none, none => true
  | none, some _ => false
  | some _, none => true
  | some a, some b => pvLe a b

/-- A `(:Movie)` node: its `tmdbId` identity plus the remaining
properties as an association list (movie attributes are dynamic,
`RETURN m { .* }` projects whatever is present). -/
structure MovieNode where
  tmdbId : String
  props : List (String × PropValue)
deriving DecidableEq, Repr

/-- Property lookup on a movie node, `m.`key``; `none` models a missing
property (Cypher `null`). -/
def getProp (m : MovieNode) (key : String) : Option PropValue :=
  (m.props.find? (fun p => p.1 == key)).map (fun p => p.2)

/-- A `(:Genre)` node: its unique `name` plus remaining properties. -/
structure GenreNode where
  name : String
  props : List (String × PropValue)
deriving DecidableEq, Repr

/-- The graph store visible to this layer: movie nodes, genre nodes,
`(:Movie)-[:IN_GENRE]->(:Genre)` edges keyed by `(tmdbId, genre name)`,
and `(:User)-[:HAS_FAVORITE]->(:Movie)` edges keyed by
`(userId, tmdbId)`. -/
structure Graph where
  movies : List MovieNode
  genres : List GenreNode
  inGenre : List (String × String)
  hasFavorite : List (String × String)
deriving DecidableEq, Repr

/-- A row returned by `MovieDAO.all`: the full node projection `.*`
plus the computed `favorite` boolean. -/
structure MovieRecord where
  node : MovieNode
  favorite : Bool
deriving DecidableEq, Repr

/-- A row returned by the genre-listing query: the genre projection
`.*` plus the computed member count `movies` and representative
`poster`. -/
structure GenreRecord where
  node : GenreNode
  movies : Nat
  poster : Option PropValue
deriving DecidableEq, Repr

/-- CPython slice `xs[s:e]`: both bounds are clamped to `[0, len]`,
negative bounds count from the end, and the result is the elements with
(normalized) index `i`, `s' ≤ i < e'`. -/
def pySlice {α : Type} (xs : List α) (s e : Int) : List α :=
  let n : Int := xs.length
  let s' : Int := if s < 0 then max 0 (n + s) else min s n
  let e' : Int := if e < 0 then max 0 (n + e) else min e n
  (xs.take e'.toNat).drop s'.toNat

namespace MovieDAO

/-- The query text run by `get_user_favorites` when a user id is
present. -/
def favoritesCypher : String :=
  "MATCH (u:User \x7buserId: $userId\x7d)-[:HAS_FAVORITE]->(m) RETURN m.tmdbId AS id"

/-- `MovieDAO.get_user_favorites(tx, user_id)`: returns `[]` at once
when `user_id` is `None`; otherwise runs `favoritesCypher` and collects
the `tmdbId` of every movie the user has a `HAS_FAVORITE` relationship
to.  The second component is the list of query texts executed. -/
def get_user_favorites (g : Graph) (user_id : Option String) :
    List String × List String :=
  match user_id with
  | none => ([], [])
  | some uid =>
      (((g.hasFavorite.filter (fun e => e.1 == uid)).map (fun e => e.2)),
        [favoritesCypher])

/-- The query text built by `MovieDAO.all`: `sort` and `order` are
interpolated directly into the Cypher string by `str.format`, with no
validation. -/
def allCypher (sort order : String) : String :=
  "MATCH (m:Movie) WHERE exists(m.`" ++ sort ++
    "`) RETURN m \x7b .*, favorite: m.tmdbId IN $favorites \x7d AS movie ORDER BY m.`" ++
    sort ++ "` " ++ order ++ " SKIP $skip LIMIT $limit"

/-- Ascending comparison of two movie nodes on the property named
`sort` (the `ORDER BY m.`sort`` key). -/
def movieLe (sort : String) (a b : MovieNode) : Prop :=
  opvLe (getProp a sort) (getProp b sort) = true

instance (sort : String) : DecidableRel (movieLe sort) :=
  fun a b => instDecidableEqBool _ _

/-- The reverse ordering, for `ORDER BY m.`sort` DESC`. -/
def movieGe (sort : String) (a b : MovieNode) : Prop :=
  movieLe sort b a

instance (sort : String) : DecidableRel (movieGe sort) :=
  fun a b => instDecidableEqBool _ _

/-- The row ordering requested by `ORDER BY m.`sort` order`: descending
when `order` is the string `DESC`, ascending otherwise (the query is
only well-formed for `ASC`/`DESC`; direct interpolation of anything
else is a Cypher error, see the injection analysis). -/
def sortMovies (sort order : String) (ms : List MovieNode) : List MovieNode :=
  if order == "DESC" then ms.insertionSort (movieGe sort)
  else ms.insertionSort (movieLe sort)

/-- `MovieDAO.all(sort, order, limit, skip, user_id)`: looks up the
caller's favorites, then runs `allCypher sort order`, whose semantics
are: keep movies possessing the `sort` property, order them by that
property in the direction of `order`, skip `skip` rows, return at most
`limit` rows, each projected as `m { .*, favorite: m.tmdbId IN
$favorites }`.  The Python parameter `user_id` defaults to
`os.environ.get("USER_ID")`; the model takes the resolved optional
value.  `skip`/`limit` are modelled as `Nat` (Neo4j rejects negative
`SKIP`/`LIMIT` at run time; the spec's invariant restricts to
non-negative values).  Second component: query texts executed, in
order. -/
def all (g : Graph) (sort order : String) (limit skip : Nat)
    (user_id : Option String) : List MovieRecord × List String :=
  let fav := get_user_favorites g user_id
  let matched := g.movies.filter (fun m => (getProp m sort).isSome)
  let page := ((sortMovies sort order matched).drop skip).take limit
  (page.map (fun m => { node := m, favorite := fav.1.contains m.tmdbId }),
    fav.2 ++ [allCypher sort order])

/-- The Genre sentinel value excluded by the genre-listing query. -/
def noGenres : String := "(no genres listed)"

/-- Member movies of a genre: `(g)<-[:IN_GENRE]-(m:Movie)`. -/
def membersOf (g : Graph) (gn : GenreNode) : List MovieNode :=
  g.movies.filter (fun m => g.inGenre.contains (m.tmdbId, gn.name))

/-- Member movies eligible for the representative-poster subquery:
`m.imdbRating IS NOT NULL AND m.poster IS NOT NULL`. -/
def qualifiedOf (g : Graph) (gn : GenreNode) : List MovieNode :=
  (membersOf g gn).filter
    (fun m => (getProp m "imdbRating").isSome && (getProp m "poster").isSome)

/-- Descending-rating order used by `ORDER BY m.imdbRating DESC`. -/
def ratingGe (a b : MovieNode) : Prop :=
  opvLe (getProp b "imdbRating") (getProp a "imdbRating") = true

instance : DecidableRel ratingGe :=
  fun a b => instDecidableEqBool _ _

/-- Name order used by the final `ORDER BY g.name ASC`. -/
def nameLe (a b : GenreRecord) : Prop :=
  strLe a.node.name b.node.name = true

instance : DecidableRel nameLe :=
  fun a b => instDecidableEqBool _ _

/-- Semantics of the genre-listing query defined (but never invoked)
inside `MovieDAO.get_by_genre`: every genre except the sentinel, each
joined by a `CALL` subquery selecting the poster of its highest-rated
member movie with non-null rating and poster.  A `CALL` subquery that
yields no row eliminates the outer row, so a genre with no such member
produces no record.  `movies` counts all member movies; rows are
ordered by genre name. -/
def genreRows (g : Graph) : List GenreRecord :=
  (g.genres.filter (fun gn => gn.name != noGenres)).filterMap
    (fun gn =>
      match ((qualifiedOf g gn).insertionSort ratingGe).head? with
      | none => none
      | some top =>
          some { node := gn, movies := (membersOf g gn).length,
                 poster := getProp top "poster" })

/-- The final `ORDER BY g.name ASC` over the rows of `genreRows`. -/
def genreListing (g : Graph) : List GenreRecord :=
  (genreRows g).insertionSort nameLe

/-- `MovieDAO.get_by_genre(name, sort, order, limit, skip, user_id)`:
the body defines a nested function (whose query semantics are
`genreListing`) but never calls it; control falls off the end of the
method, so Python returns `None` and no query executes. -/
def get_by_genre (g : Graph) (name sort order : String) (limit skip : Int)
    (user_id : Option String) : Option (List GenreRecord) × List String :=
  (none, [])

/-- `MovieDAO.get_for_actor(id, sort, order, limit, skip, user_id)`:
an unimplemented stub, `return popular[skip:limit]`.  Modelled from the
spec for `popular`: the `api.data` module (not under `src/`) supplies a
fixed sample list whose contents the spec leaves unspecified, so it is
a parameter here.  No query executes. -/
def get_for_actor {α : Type} (popular : List α) (id sort order : String)
    (limit skip : Int) (user_id : Option String) : List α × List String :=
  (pySlice popular skip limit, [])

/-- `MovieDAO.get_for_director(id, sort, order, limit, skip, user_id)`:
an unimplemented stub, `return popular[skip:limit]`, exactly as
`get_for_actor`. -/
def get_for_director {α : Type} (popular : List α) (id sort order : String)
    (limit skip : Int) (user_id : Option String) : List α × List String :=
  (pySlice popular skip limit, [])

/-- `MovieDAO.find_by_id(id, user_id)`: an unimplemented stub,
`return goodfellas`.  Modelled from the spec for `goodfellas`: the
`api.data` module (not under `src/`) supplies a fixed sample record
whose contents the spec leaves unspecified, so it is a parameter here.
No query executes. -/
def find_by_id {α : Type} (goodfellas : α) (id : String)
    (user_id : Option String) : α × List String :=
  (goodfellas, [])

/-- `MovieDAO.get_similar_movies(id, limit, skip, user_id)`: an
unimplemented stub, `return popular[skip:limit]`. -/
def get_similar_movies {α : Type} (popular : List α) (id : String)
    (limit skip : Int) (user_id : Option String) : List α × List String :=
  (pySlice popular skip limit, [])

/-- Modelled from the spec: the allow-list of sortable Movie attributes
("title, release year, poster, rating"); the code contains no such
list, which is the point of the injection analysis. -/
def allowedSortFields : List String :=
  ["title", "released", "year", "poster", "imdbRating"]

/-- A caller-controlled `sort` value that is not a Movie attribute:
Cypher fragments ride along into the query text. -/
def badSortValue : String := "title` DESC SKIP 0 //"

end MovieDAO

/-- Test fixture: a movie with title, rating and poster. -/
def cgM1 : MovieNode :=
  { tmdbId := "1",
    props := [("title", .str "Apollo"), ("imdbRating", .int 8),
              ("poster", .str "p1")] }

/-- Test fixture: a second movie, higher rated. -/
def cgM2 : MovieNode :=
  { tmdbId := "2",
    props := [("title", .str "Brazil"), ("imdbRating", .int 9),
              ("poster", .str "p2")] }

/-- Test fixture: a movie with no rating and no poster. -/
def cgM3 : MovieNode :=
  { tmdbId := "3", props := [("title", .str "Casino")] }

/-- Test fixture: the Drama genre. -/
def cgDrama : GenreNode := { name := "Drama", props := [] }

/-- Test fixture: the Western genre, with no member movies. -/
def cgWestern : GenreNode := { name := "Western", props := [] }

/-- Test fixture graph: three movies, two real genres plus the
sentinel, `Drama` membership for movies 1 and 2, and one favorite of
user `alice`. -/
def cg : Graph :=
  { movies := [cgM1, cgM2, cgM3],
    genres := [cgDrama, cgWestern, ⟨MovieDAO.noGenres, []⟩],
    inGenre := [("1", "Drama"), ("2", "Drama")],
    hasFavorite := [("alice", "2")] }

/-! ### Order theory for the comparison functions -/

theorem charsLe_total : ∀ as bs : List Char,
    charsLe as bs = true ∨ charsLe bs as = true
  | [], _ => Or.inl rfl
  | _ :: _, [] => Or.inr rfl
  | a :: as, b :: bs => by
    by_cases hab : a < b
    · exact Or.inl (by simp [charsLe, hab])
    · by_cases hba : b < a
      · exact Or.inr (by simp [charsLe, hba])
      · rcases charsLe_total as bs with h | h
        · exact Or.inl (by simp [charsLe, hab, hba, h])
        · exact Or.inr (by simp [charsLe, hab, hba, h])

theorem charsLe_refl : ∀ as : List Char, charsLe as as = true
  | [] => rfl
  | a :: as => by simp [charsLe, charsLe_refl as]

theorem charsLe_trans : ∀ {as bs cs : List Char},
    charsLe as bs = true → charsLe bs cs = true → charsLe as cs = true
  | [], _, _, _, _ => rfl
  | _ :: _, [], _, h1, _ => by simp [charsLe] at h1
  | _ :: _, _ :: _, [], _, h2 => by simp [charsLe] at h2
  | a :: as, b :: bs, c :: cs, h1, h2 => by
    by_cases hab : a < b
    · by_cases hbc : b < c
      · simp [charsLe, lt_trans hab hbc]
      · by_cases hcb : c < b
        · simp [charsLe, hcb] at h2
          exact absurd h2 hbc
        · obtain rfl := ((lt_trichotomy b c).resolve_left hbc).resolve_right hcb
          simp [charsLe, hab]
    · by_cases hba : b < a
      · simp [charsLe, hab, hba] at h1
      · obtain rfl := ((lt_trichotomy a b).resolve_left hab).resolve_right hba
        simp only [charsLe, if_neg hab, if_neg hba] at h1
        by_cases hac : a < c
        · simp [charsLe, hac]
        · by_cases hca : c < a
          · simp [charsLe, hac, hca] at h2
          · obtain rfl := ((lt_trichotomy a c).resolve_left hac).resolve_right hca
            simp only [charsLe, if_neg hac, if_neg hca] at h2 ⊢
            exact charsLe_trans h1 h2

theorem pvLe_total (a b : PropValue) : pvLe a b = true ∨ pvLe b a = true := by
  cases a <;> cases b <;> simp [pvLe, strLe]
  · exact charsLe_total _ _
  · omega

theorem pvLe_trans {a b c : PropValue} (h1 : pvLe a b = true)
    (h2 : pvLe b c = true) : pvLe a c = true := by
  cases a <;> cases b <;> cases c <;>
    simp [pvLe, strLe] at h1 h2 ⊢
  · exact charsLe_trans h1 h2
  · omega

theorem pvLe_refl (a : PropValue) : pvLe a a = true := by
  cases a <;> simp [pvLe, strLe, charsLe_refl]

theorem opvLe_refl (a : Option PropValue) : opvLe a a = true := by
  cases a <;> simp [opvLe, pvLe_refl]

theorem opvLe_total (a b : Option PropValue) :
    opvLe a b = true ∨ opvLe b a = true := by
  cases a <;> cases b <;> simp [opvLe]
  exact pvLe_total _ _

theorem opvLe_trans {a b c : Option PropValue} (h1 : opvLe a b = true)
    (h2 : opvLe b c = true) : opvLe a c = true := by
  cases a <;> cases b <;> cases c <;> simp [opvLe] at h1 h2 ⊢
  exact pvLe_trans h1 h2

namespace MovieDAO

instance (sort : String) : IsTotal MovieNode (movieLe sort) :=
  ⟨fun a b => opvLe_total _ _⟩

instance (sort : String) : IsTrans MovieNode (movieLe sort) :=
  ⟨fun _ _ _ => opvLe_trans⟩

instance (sort : String) : IsTotal MovieNode (movieGe sort) :=
  ⟨fun a b => (opvLe_total _ _).symm⟩

instance (sort : String) : IsTrans MovieNode (movieGe sort) :=
  ⟨fun _ _ _ h1 h2 => opvLe_trans h2 h1⟩

instance : IsTotal MovieNode ratingGe :=
  ⟨fun a b => (opvLe_total _ _).symm⟩

instance : IsTrans MovieNode ratingGe :=
  ⟨fun _ _ _ h1 h2 => opvLe_trans h2 h1⟩

instance : IsTotal GenreRecord nameLe :=
  ⟨fun a b => charsLe_total _ _⟩

instance : IsTrans GenreRecord nameLe :=
  ⟨fun _ _ _ h1 h2 => charsLe_trans h1 h2⟩

end MovieDAO

/-! ### Claim theorems -/

/-- C1: the claim states that a `sort` value outside the allow-list (or
an `order` outside ASC/DESC) fails validation before any query text is
constructed or executed.  The code has no validation path: `all`
unconditionally interpolates `sort` and `order` into the Cypher text
and executes it, as this evaluation at a non-allow-listed sort value
shows — the caller-controlled fragment appears verbatim in the executed
query text. -/
theorem all_executes_any_sort_unvalidated :
    MovieDAO.badSortValue ∉ MovieDAO.allowedSortFields
    ∧ (MovieDAO.all cg MovieDAO.badSortValue "ASC" 6 0 none).2 =
        [MovieDAO.allCypher MovieDAO.badSortValue "ASC"]
    ∧ MovieDAO.allCypher MovieDAO.badSortValue "ASC" =
        "MATCH (m:Movie) WHERE exists(m.`title` DESC SKIP 0 //`) RETURN m \x7b .*, favorite: m.tmdbId IN $favorites \x7d AS movie ORDER BY m.`title` DESC SKIP 0 //` ASC SKIP $skip LIMIT $limit"
    ∧ ∀ (g : Graph) (sort order : String) (limit skip : Nat)
        (uid : Option String),
        (MovieDAO.all g sort order limit skip uid).2 =
          (MovieDAO.get_user_favorites g uid).2 ++
            [MovieDAO.allCypher sort order] :=
  ⟨by decide, rfl, rfl, fun _ _ _ _ _ _ => rfl⟩

/-- C7: `get_by_genre` produces no result (`None`) and executes no
query, for every input: its nested query function is defined but never
invoked. -/
theorem get_by_genre_returns_none :
    ∀ (g : Graph) (name sort order : String) (limit skip : Int)
      (uid : Option String),
      MovieDAO.get_by_genre g name sort order limit skip uid = (none, []) :=
  fun _ _ _ _ _ _ _ => rfl

/-- C8: `find_by_id` returns the fixed `goodfellas` sample record for
every `id` and every `user_id`, executing no query: the result is
independent of both arguments. -/
theorem find_by_id_returns_fixed_sample :
    ∀ (α : Type) (goodfellas : α) (id : String) (uid : Option String),
      MovieDAO.find_by_id goodfellas id uid = (goodfellas, []) :=
  fun _ _ _ _ => rfl

/-- The length of a CPython slice with non-negative bounds:
`max 0 (min e |xs| - s)` elements. -/
theorem pySlice_length {α : Type} (xs : List α) (s e : Int)
    (hs : 0 ≤ s) (he : 0 ≤ e) :
    ((pySlice xs s e).length : Int) = max 0 (min e (xs.length : Int) - s) := by
  have h1 : ¬ s < 0 := not_lt.mpr hs
  have h2 : ¬ e < 0 := not_lt.mpr he
  simp only [pySlice, h1, h2, if_false, List.length_drop, List.length_take]
  omega

/-- C4: `get_user_favorites` returns the empty list at once (no query
executed) when `user_id` is absent — in particular it cannot raise —
and otherwise returns exactly the `tmdbId`s of the movies linked to
that user by a `HAS_FAVORITE` relationship. -/
theorem get_user_favorites_spec :
    (∀ g : Graph, MovieDAO.get_user_favorites g none = ([], []))
    ∧ ∀ (g : Graph) (u t : String),
        t ∈ (MovieDAO.get_user_favorites g (some u)).1 ↔
          (u, t) ∈ g.hasFavorite := by
  refine ⟨fun _ => rfl, fun g u t => ?_⟩
  simp only [MovieDAO.get_user_favorites, List.mem_map, List.mem_filter]
  constructor
  · rintro ⟨⟨a, b⟩, ⟨hmem, he⟩, rfl⟩
    obtain rfl : a = u := by simpa using he
    exact hmem
  · intro h
    exact ⟨(u, t), ⟨h, by simp⟩, rfl⟩

/-- C5: every list-returning method respects the pagination bound: for
`skip ≥ 0` and `limit ≥ 0` the returned list has at most `limit`
records (`get_by_genre` returns `None`, i.e. zero records). -/
theorem results_bounded_by_limit :
    (∀ (g : Graph) (sort order : String) (limit skip : Nat)
        (uid : Option String),
        (MovieDAO.all g sort order limit skip uid).1.length ≤ limit)
    ∧ (∀ (g : Graph) (name sort order : String) (limit skip : Int)
        (uid : Option String), 0 ≤ skip → 0 ≤ limit →
        ((((MovieDAO.get_by_genre g name sort order limit skip
            uid).1.getD []).length : Int) ≤ limit))
    ∧ (∀ (α : Type) (popular : List α) (id sort order : String)
        (limit skip : Int) (uid : Option String), 0 ≤ skip → 0 ≤ limit →
        (((MovieDAO.get_for_actor popular id sort order limit skip
            uid).1.length : Int) ≤ limit))
    ∧ (∀ (α : Type) (popular : List α) (id sort order : String)
        (limit skip : Int) (uid : Option String), 0 ≤ skip → 0 ≤ limit →
        (((MovieDAO.get_for_director popular id sort order limit skip
            uid).1.length : Int) ≤ limit))
    ∧ (∀ (α : Type) (popular : List α) (id : String)
        (limit skip : Int) (uid : Option String), 0 ≤ skip → 0 ≤ limit →
        (((MovieDAO.get_similar_movies popular id limit skip
            uid).1.length : Int) ≤ limit)) := by
  refine ⟨?_, ?_, ?_, ?_, ?_⟩
  · intro g sort order limit skip uid
    simp only [MovieDAO.all, List.length_map, List.length_take]
    exact min_le_left _ _
  · intro g name sort order limit skip uid hs hl
    simpa [MovieDAO.get_by_genre] using hl
  · intro α popular id sort order limit skip uid hs hl
    show ((pySlice popular skip limit).length : Int) ≤ limit
    rw [pySlice_length popular skip limit hs hl]
    omega
  · intro α popular id sort order limit skip uid hs hl
    show ((pySlice popular skip limit).length : Int) ≤ limit
    rw [pySlice_length popular skip limit hs hl]
    omega
  · intro α popular id limit skip uid hs hl
    show ((pySlice popular skip limit).length : Int) ≤ limit
    rw [pySlice_length popular skip limit hs hl]
    omega

/-- C5 witness: the bound discharged at concrete inputs. -/
theorem results_bounded_by_limit_witness :
    (MovieDAO.all cg "imdbRating" "ASC" 1 0 none).1.length ≤ 1
    ∧ ((0 : Int) ≤ 1 ∧ (0 : Int) ≤ 2)
    ∧ ((((MovieDAO.get_by_genre cg "Drama" "title" "ASC" 2 1
        none).1.getD []).length : Int) ≤ 2)
    ∧ (((MovieDAO.get_for_actor ([10, 11, 12] : List Nat) "a" "title"
        "ASC" 2 1 none).1.length : Int) ≤ 2)
    ∧ (((MovieDAO.get_for_director ([10, 11, 12] : List Nat) "a" "title"
        "ASC" 2 1 none).1.length : Int) ≤ 2)
    ∧ (((MovieDAO.get_similar_movies ([10, 11, 12] : List Nat) "a" 2 1
        none).1.length : Int) ≤ 2) :=
  ⟨results_bounded_by_limit.1 cg "imdbRating" "ASC" 1 0 none,
   ⟨by decide, by decide⟩,
   results_bounded_by_limit.2.1 cg "Drama" "title" "ASC" 2 1 none
     (by decide) (by decide),
   results_bounded_by_limit.2.2.1 Nat [10, 11, 12] "a" "title" "ASC" 2 1
     none (by decide) (by decide),
   results_bounded_by_limit.2.2.2.1 Nat [10, 11, 12] "a" "title" "ASC" 2 1
     none (by decide) (by decide),
   results_bounded_by_limit.2.2.2.2 Nat [10, 11, 12] "a" 2 1 none
     (by decide) (by decide)⟩

/-- C10: the three stub methods slice the sample list by index,
`popular[skip:limit]`, rather than skipping `skip` rows and then taking
`limit` rows: for non-negative arguments the result holds
`max 0 (min limit |popular| - skip)` records, and whenever
`skip ≥ limit` it is empty even though more sample records exist. -/
theorem stubs_slice_by_index :
    ∀ (α : Type) (popular : List α) (id sort order : String)
      (uid : Option String) (limit skip : Int), 0 ≤ skip → 0 ≤ limit →
      (((MovieDAO.get_for_actor popular id sort order limit skip
          uid).1.length : Int) = max 0 (min limit (popular.length : Int) - skip))
      ∧ (((MovieDAO.get_for_director popular id sort order limit skip
          uid).1.length : Int) = max 0 (min limit (popular.length : Int) - skip))
      ∧ (((MovieDAO.get_similar_movies popular id limit skip
          uid).1.length : Int) = max 0 (min limit (popular.length : Int) - skip))
      ∧ (limit ≤ skip →
          (MovieDAO.get_for_actor popular id sort order limit skip uid).1 = []
          ∧ (MovieDAO.get_for_director popular id sort order limit skip
              uid).1 = []
          ∧ (MovieDAO.get_similar_movies popular id limit skip
              uid).1 = []) := by
  intro α popular id sort order uid limit skip hs hl
  have hlen := pySlice_length popular skip limit hs hl
  have hnil : limit ≤ skip → pySlice popular skip limit = [] := by
    intro hle
    have h0 : (pySlice popular skip limit).length = 0 := by omega
    exact List.length_eq_zero.mp h0
  exact ⟨hlen, hlen, hlen, fun hle => ⟨hnil hle, hnil hle, hnil hle⟩⟩

/-- C10 witness: with three sample records, `skip = 1`, `limit = 2`
yields one record, and `skip = 2 ≥ limit = 2` yields none though a
third record exists. -/
theorem stubs_slice_by_index_witness :
    ((0 : Int) ≤ 2 ∧ (0 : Int) ≤ 2)
    ∧ (((MovieDAO.get_for_actor ([10, 11, 12] : List Nat) "a" "title"
        "ASC" 2 2 none).1.length : Int) =
          max 0 (min 2 ((([10, 11, 12] : List Nat)).length : Int) - 2))
    ∧ (MovieDAO.get_for_actor ([10, 11, 12] : List Nat) "a" "title"
        "ASC" 2 2 none).1 = [] :=
  ⟨⟨by decide, by decide⟩,
   (stubs_slice_by_index Nat [10, 11, 12] "a" "title" "ASC" none 2 2
     (by decide) (by decide)).1,
   ((stubs_slice_by_index Nat [10, 11, 12] "a" "title" "ASC" none 2 2
     (by decide) (by decide)).2.2.2 (by decide)).1⟩

/-- `sortMovies` permutes its input whatever the direction string. -/
theorem sortMovies_perm (sort order : String) (ms : List MovieNode) :
    List.Perm (MovieDAO.sortMovies sort order ms) ms := by
  unfold MovieDAO.sortMovies
  split
  · exact List.perm_insertionSort _ _
  · exact List.perm_insertionSort _ _

/-- C3: every record returned by `all` carries
`favorite = (tmdbId ∈ F)` for the caller's favorites set `F`; with no
user identity, `favorite` is `false` on every record. -/
theorem all_favorite_flag (g : Graph) (sort order : String)
    (limit skip : Nat) (uid : Option String) :
    (∀ r ∈ (MovieDAO.all g sort order limit skip uid).1,
        (r.favorite = true ↔
          r.node.tmdbId ∈ (MovieDAO.get_user_favorites g uid).1))
    ∧ (uid = none →
        ∀ r ∈ (MovieDAO.all g sort order limit skip uid).1,
          r.favorite = false) := by
  constructor
  · intro r hr
    simp only [MovieDAO.all, List.mem_map] at hr
    obtain ⟨m, hm, rfl⟩ := hr
    simp
  · rintro rfl r hr
    simp only [MovieDAO.all, List.mem_map] at hr
    obtain ⟨m, hm, rfl⟩ := hr
    rfl

/-- C3 witness: on the fixture graph, user `alice` gets `favorite =
true` exactly on her favorite movie. -/
theorem all_favorite_flag_witness :
    ((⟨cgM2, true⟩ : MovieRecord) ∈
        (MovieDAO.all cg "imdbRating" "ASC" 6 0 (some "alice")).1)
    ∧ ((⟨cgM2, true⟩ : MovieRecord).favorite = true ↔
        (⟨cgM2, true⟩ : MovieRecord).node.tmdbId ∈
          (MovieDAO.get_user_favorites cg (some "alice")).1) :=
  ⟨by decide,
   (all_favorite_flag cg "imdbRating" "ASC" 6 0 (some "alice")).1 _
     (by decide)⟩

/-- C2: for an allow-listed `sort` and `order` in {ASC, DESC}, `all`
returns at most `limit` records, ordered non-decreasingly (ASC) or
non-increasingly (DESC) on the `sort` property, and — since `tmdbId` is
the unique movie identity — no two returned records share a
`tmdbId`. -/
theorem all_sorted_paginated_distinct (g : Graph) (sort order : String)
    (limit skip : Nat) (uid : Option String)
    (hsort : sort ∈ MovieDAO.allowedSortFields)
    (horder : order = "ASC" ∨ order = "DESC")
    (hids : (g.movies.map MovieNode.tmdbId).Nodup) :
    (MovieDAO.all g sort order limit skip uid).1.length ≤ limit
    ∧ (order = "ASC" →
        (MovieDAO.all g sort order limit skip uid).1.Pairwise
          (fun a b => MovieDAO.movieLe sort a.node b.node))
    ∧ (order = "DESC" →
        (MovieDAO.all g sort order limit skip uid).1.Pairwise
          (fun a b => MovieDAO.movieLe sort b.node a.node))
    ∧ ((MovieDAO.all g sort order limit skip uid).1.map
        (fun r => r.node.tmdbId)).Nodup := by
  have hpage : ∀ l : List MovieNode,
      List.Sublist ((l.drop skip).take limit) l :=
    fun l => (List.take_sublist _ _).trans (List.drop_sublist _ _)
  refine ⟨?_, ?_, ?_, ?_⟩
  · simp only [MovieDAO.all, List.length_map, List.length_take]
    exact min_le_left _ _
  · rintro rfl
    have hsorted :
        (MovieDAO.sortMovies sort "ASC"
          (g.movies.filter (fun m => (getProp m sort).isSome))).Pairwise
            (MovieDAO.movieLe sort) := by
      simp only [MovieDAO.sortMovies, if_neg (by decide : ¬ (("ASC" == "DESC") = true))]
      exact List.sorted_insertionSort _ _
    exact List.pairwise_map.mpr ((hsorted.sublist (hpage _)))
  · rintro rfl
    have hsorted :
        (MovieDAO.sortMovies sort "DESC"
          (g.movies.filter (fun m => (getProp m sort).isSome))).Pairwise
            (MovieDAO.movieGe sort) := by
      simp only [MovieDAO.sortMovies, if_pos (by decide : (("DESC" == "DESC") = true))]
      exact List.sorted_insertionSort _ _
    exact List.pairwise_map.mpr ((hsorted.sublist (hpage _)))
  · have h0 : g.movies.Pairwise
        (fun a b : MovieNode => a.tmdbId ≠ b.tmdbId) :=
      List.pairwise_map.mp hids
    have h1 : (g.movies.filter
        (fun m => (getProp m sort).isSome)).Pairwise
          (fun a b : MovieNode => a.tmdbId ≠ b.tmdbId) :=
      h0.sublist (List.filter_sublist _)
    have h2 : (MovieDAO.sortMovies sort order
        (g.movies.filter (fun m => (getProp m sort).isSome))).Pairwise
          (fun a b : MovieNode => a.tmdbId ≠ b.tmdbId) :=
      ((sortMovies_perm sort order _).pairwise_iff
        (fun h => fun hh => h hh.symm)).mpr h1
    have h3 := h2.sublist (hpage _)
    simp only [MovieDAO.all, List.map_map]
    exact List.pairwise_map.mpr h3

/-- C2 witness: the bound, ordering and distinctness discharged on the
fixture graph, sorting by rating ascending. -/
theorem all_sorted_paginated_distinct_witness :
    ("imdbRating" ∈ MovieDAO.allowedSortFields
      ∧ ("ASC" = "ASC" ∨ ("ASC" : String) = "DESC")
      ∧ (cg.movies.map MovieNode.tmdbId).Nodup)
    ∧ ((MovieDAO.all cg "imdbRating" "ASC" 2 0 none).1.length ≤ 2
      ∧ ("ASC" = "ASC" →
          (MovieDAO.all cg "imdbRating" "ASC" 2 0 none).1.Pairwise
            (fun a b => MovieDAO.movieLe "imdbRating" a.node b.node))
      ∧ (("ASC" : String) = "DESC" →
          (MovieDAO.all cg "imdbRating" "ASC" 2 0 none).1.Pairwise
            (fun a b => MovieDAO.movieLe "imdbRating" b.node a.node))
      ∧ ((MovieDAO.all cg "imdbRating" "ASC" 2 0 none).1.map
          (fun r => r.node.tmdbId)).Nodup) :=
  ⟨⟨by decide, Or.inl rfl, by decide⟩,
   all_sorted_paginated_distinct cg "imdbRating" "ASC" 2 0 none
     (by decide) (Or.inl rfl) (by decide)⟩

/-- C9: for `get_for_actor`, `get_for_director` and
`get_similar_movies`, two calls agreeing on `skip` and `limit` return
equal results whatever the values of `id`, `sort`, `order` and
`user_id`: the output is independent of those arguments. -/
theorem stubs_ignore_identity_and_sort_args :
    ∀ (α : Type) (popular : List α) (id1 id2 s1 s2 o1 o2 : String)
      (u1 u2 : Option String) (limit skip : Int),
      MovieDAO.get_for_actor popular id1 s1 o1 limit skip u1 =
        MovieDAO.get_for_actor popular id2 s2 o2 limit skip u2
      ∧ MovieDAO.get_for_director popular id1 s1 o1 limit skip u1 =
          MovieDAO.get_for_director popular id2 s2 o2 limit skip u2
      ∧ MovieDAO.get_similar_movies popular id1 limit skip u1 =
          MovieDAO.get_similar_movies popular id2 limit skip u2 :=
  fun _ _ _ _ _ _ _ _ _ _ _ _ => ⟨rfl, rfl, rfl⟩

/-- C6 counterexample: on the fixture graph, `Western` is a genre
distinct from the sentinel, yet the genre listing omits it — its `CALL`
subquery finds no member movie with a rating and poster, which
eliminates the row.  So the listing does not return every non-sentinel
genre. -/
theorem genreListing_omits_western :
    cgWestern ∈ cg.genres
    ∧ cgWestern.name ≠ MovieDAO.noGenres
    ∧ ¬ cgWestern.name ∈ (MovieDAO.genreListing cg).map (fun r => r.node.name) :=
  ⟨by decide, by decide, by decide⟩

/-- C6 (amended): the genre listing returns exactly the non-sentinel
genres having at least one member movie with non-null `imdbRating` and
`poster`; each returned record carries the full member count and the
poster of a maximal-rating such member. -/
theorem genreListing_spec (g : Graph) :
    (∀ gn ∈ g.genres, gn.name ≠ MovieDAO.noGenres →
      MovieDAO.qualifiedOf g gn ≠ [] →
      ∃ rec ∈ MovieDAO.genreListing g,
        rec.node = gn
        ∧ rec.movies = (MovieDAO.membersOf g gn).length
        ∧ ∃ top ∈ MovieDAO.qualifiedOf g gn,
            rec.poster = getProp top "poster"
            ∧ ∀ m ∈ MovieDAO.qualifiedOf g gn, MovieDAO.ratingGe top m)
    ∧ (∀ rec ∈ MovieDAO.genreListing g,
        rec.node ∈ g.genres ∧ rec.node.name ≠ MovieDAO.noGenres
        ∧ MovieDAO.qualifiedOf g rec.node ≠ []) := by
  constructor
  · intro gn hmem hname hq
    have hperm : List.Perm
        ((MovieDAO.qualifiedOf g gn).insertionSort MovieDAO.ratingGe)
        (MovieDAO.qualifiedOf g gn) := List.perm_insertionSort _ _
    obtain ⟨top, tail, htop⟩ : ∃ a l,
        (MovieDAO.qualifiedOf g gn).insertionSort MovieDAO.ratingGe
          = a :: l := by
      cases hr : (MovieDAO.qualifiedOf g gn).insertionSort MovieDAO.ratingGe with
      | nil => exact absurd ((hr ▸ hperm).symm.eq_nil) hq
      | cons a l => exact ⟨a, l, rfl⟩
    have hsorted : List.Sorted MovieDAO.ratingGe (top :: tail) :=
      htop ▸ List.sorted_insertionSort _ _
    refine ⟨{ node := gn, movies := (MovieDAO.membersOf g gn).length,
              poster := getProp top "poster" }, ?_, rfl, rfl,
            ⟨top, ?_, rfl, ?_⟩⟩
    · apply (List.perm_insertionSort MovieDAO.nameLe
        (MovieDAO.genreRows g)).mem_iff.mpr
      apply List.mem_filterMap.mpr
      refine ⟨gn, List.mem_filter.mpr ⟨hmem, by simp [hname]⟩, ?_⟩
      rw [htop]
      rfl
    · exact hperm.subset (htop ▸ List.mem_cons_self top tail)
    · intro m hm
      have hmr : m ∈ top :: tail :=
        htop ▸ hperm.mem_iff.mpr hm
      rcases List.mem_cons.mp hmr with rfl | hmt
      · exact opvLe_refl _
      · exact List.rel_of_sorted_cons hsorted m hmt
  · intro rec hrec
    have hrows : rec ∈ MovieDAO.genreRows g :=
      (List.perm_insertionSort MovieDAO.nameLe
        (MovieDAO.genreRows g)).subset hrec
    obtain ⟨gn, hgn, hfgn⟩ := List.mem_filterMap.mp hrows
    obtain ⟨hmemg, hbne⟩ := List.mem_filter.mp hgn
    cases hr : (MovieDAO.qualifiedOf g gn).insertionSort MovieDAO.ratingGe with
    | nil => rw [hr] at hfgn; simp at hfgn
    | cons a l =>
      rw [hr] at hfgn
      simp only [List.head?_cons, Option.some.injEq] at hfgn
      obtain rfl := hfgn.symm
      refine ⟨hmemg, ?_, ?_⟩
      · intro hEq
        rw [hEq] at hbne
        simp at hbne
      · intro hnil
        rw [hnil] at hr
        simp at hr

/-- C6 witness: on the fixture graph, `Drama` qualifies and is listed
with both member movies counted and the higher-rated member's
poster. -/
theorem genreListing_spec_witness :
    (cgDrama ∈ cg.genres ∧ cgDrama.name ≠ MovieDAO.noGenres
      ∧ MovieDAO.qualifiedOf cg cgDrama ≠ [])
    ∧ (∃ rec ∈ MovieDAO.genreListing cg,
        rec.node = cgDrama
        ∧ rec.movies = (MovieDAO.membersOf cg cgDrama).length
        ∧ ∃ top ∈ MovieDAO.qualifiedOf cg cgDrama,
            rec.poster = getProp top "poster"
            ∧ ∀ m ∈ MovieDAO.qualifiedOf cg cgDrama,
                MovieDAO.ratingGe top m) :=
  ⟨⟨by decide, by decide, by decide⟩,
   (genreListing_spec cg).1 cgDrama (by decide) (by decide) (by decide)⟩
